import Mathlib

/-!
Verification of the per-datagram processing pipeline of `stun/tools/stund.c`
(libnice's minimal STUN binding-discovery responder).

The embedding follows the source file closely:
* `listen_socket` — socket creation/configuration (lines 75-148);
* `recv_err` — one-entry error-queue dequeue (lines 152-159);
* `recv_safe` — receive with truncation detection (lines 163-176);
* `send_safe` — send with error-queue interaction (lines 180-189);
* `dgram_process` — the per-datagram state machine (lines 192-255).

The STUN codec/agent (`stun_agent_validate`, `stun_agent_init_response`,
`stun_message_append_xor_addr`, `stun_agent_finish_message`, ...) lives
outside this file's source (it is an external collaborator per the design);
its observable behaviour is modelled from the spec's collaborator contract:
validation results are oracle inputs, response construction is symbolic, and
the XOR obfuscation is exclusive-or with a transaction-derived mask.

OS interaction (socket(), bind(), listen(), setsockopt(), recvmsg(),
sendmsg(), the per-socket asynchronous error queue) is modelled as explicit
oracle data: outcome of each call plus the error-queue contents, with the
functions returning traces of the actions they performed.
-/

namespace Stund

/-! ## Address families, socket types, socket options (Endpoint Listener) -/

/-- Address family: `AF_INET` or `AF_INET6` (the only two the program uses). -/
inductive Fam
  | inet
  | inet6
  deriving DecidableEq, Repr

/-- Socket type: `SOCK_DGRAM`, `SOCK_STREAM` or `SOCK_RAW`.  The source
branches on "dgram or raw" versus everything else. -/
inductive SockType
  | dgram
  | stream
  | raw
  deriving DecidableEq, Repr

/-- The socket options `listen_socket` may set via `setsockopt`. -/
inductive SockOpt
  | ipv6Only
  | ipPktinfo
  | ipRecverr
  | ipv6Recvpktinfo
  | ipv6Recverr
  deriving DecidableEq, Repr

/-- The constant `INT_MAX`: the backlog passed to `listen` (32-bit int). -/
def INT_MAX : Nat := 2 ^ 31 - 1

/-- Oracle outcomes of the OS calls made during `listen_socket`:
the descriptor returned by `socket()` (`none` models `-1`), and whether
`bind()` / `listen()` succeed (in C they return `0` on success). -/
structure OsEnv where
  socketResult : Option Nat
  bindOk : Bool
  listenOk : Bool
  deriving Repr

/-- The observable result of `listen_socket`: the returned descriptor
(`none` models the `-1` failure return), whether `close (fd)` was executed,
the `setsockopt` calls made in order, and the backlog passed to `listen`
(if `listen` was called at all). -/
structure ListenResult where
  fd : Option Nat
  closed : Bool
  opts : List SockOpt
  listenBacklog : Option Nat
  deriving DecidableEq, Repr

/-- Function `listen_socket (fam, type, proto, port)` from the source:
`socket()`; return `-1` if it failed; `goto error` (close + `-1`) if the
descriptor is below 3; for `AF_INET6` set `IPV6_V6ONLY`; `bind()`, on
failure `goto error`; for datagram/raw sockets set `PKTINFO` and `RECVERR`
options matching the family (return values ignored); otherwise
`listen (fd, INT_MAX)`, on failure `goto error`.  The bound address and
port do not affect any observable modelled here and are omitted. -/
def listen_socket (fam : Fam) (type : SockType) (os : OsEnv) : ListenResult :=
  match os.socketResult with
  | none => { fd := none, closed := false, opts := [], listenBacklog := none }
  | some fd =>
    if fd < 3 then
      { fd := none, closed := true, opts := [], listenBacklog := none }
    else
      let opts0 : List SockOpt :=
        match fam with
        | Fam.inet => []
        | Fam.inet6 => [SockOpt.ipv6Only]
      if ¬ os.bindOk then
        { fd := none, closed := true, opts := opts0, listenBacklog := none }
      else if type = SockType.dgram ∨ type = SockType.raw then
        let opts1 : List SockOpt :=
          opts0 ++
            (match fam with
             | Fam.inet => [SockOpt.ipPktinfo, SockOpt.ipRecverr]
             | Fam.inet6 => [SockOpt.ipv6Recvpktinfo, SockOpt.ipv6Recverr])
        { fd := some fd, closed := false, opts := opts1, listenBacklog := none }
      else
        if ¬ os.listenOk then
          { fd := none, closed := true, opts := opts0, listenBacklog := some INT_MAX }
        else
          { fd := some fd, closed := false, opts := opts0, listenBacklog := some INT_MAX }

/-! ## Reliable Datagram Transport -/

/-- Function `recv_err (fd)` from the source:
`recvmsg (fd, &hdr, MSG_ERRQUEUE) >= 0`,
i.e. it dequeues at most one entry from the socket's asynchronous error
queue and reports whether one was dequeued.  The queue is modelled as the
list of its entries; the result is the C return value (`true` = `1`,
an entry was dequeued) together with the remaining queue. -/
def recv_err (errq : List Nat) : Bool × List Nat :=
  match errq with
  | [] => (false, [])
  | _ :: rest => (true, rest)

/-- Oracle outcome of the single `recvmsg (fd, msg, 0)` call inside
`recv_safe`: failure (`-1`), or a datagram of `len` bytes from `peer`
with the `MSG_TRUNC` flag state. -/
inductive RecvOut
  | fail
  | ok (len : Nat) (truncated : Bool) (peer : Nat)
  deriving DecidableEq, Repr

/-- The two failure modes `recv_safe` can report: the original `recvmsg`
failure (whatever `errno` it left), or `EMSGSIZE` for a truncated datagram. -/
inductive RecvError
  | original
  | msgTooLarge
  deriving DecidableEq, Repr

/-- Function `recv_safe (fd, msg)` from the source: one `recvmsg` call; if it failed,
one `recv_err` call (result ignored) and the original `-1` is returned; if
`MSG_TRUNC` is set, `errno = EMSGSIZE` and `-1`; otherwise the length.
Returns (result, error queue afterwards, number of `recv_err` calls made).
On success the result carries the received length and the peer address
written into `msg_name`. -/
def recv_safe (r : RecvOut) (errq : List Nat) :
    Except RecvError (Nat × Nat) × List Nat × Nat :=
  match r with
  | RecvOut.fail => (Except.error RecvError.original, (recv_err errq).2, 1)
  | RecvOut.ok len truncated peer =>
    if truncated then (Except.error RecvError.msgTooLarge, errq, 0)
    else (Except.ok (len, peer), errq, 0)

/-- Oracle outcome of one `sendmsg (fd, msg, 0)` call: the byte count, or
failure (`-1`). -/
inductive SendAttempt
  | ok (len : Nat)
  | fail
  deriving DecidableEq, Repr

/-- The loop body of `send_safe`:
`do len = sendmsg (fd, msg, 0); while ((len == -1) && (recv_err (fd) == 0));`.
`attempts k` is the outcome of the `k`-th `sendmsg` call; `errq` the error
queue; `fuel` bounds the iterations (the C loop is unbounded — `none` models
non-termination within the given fuel).  Result: the returned `ssize_t`
(`none` = `-1`) and the error queue afterwards. -/
def send_safe_go (attempts : Nat → SendAttempt) :
    Nat → Nat → List Nat → Option (Option Nat × List Nat)
  | 0, _, _ => none
  | fuel + 1, k, errq =>
    match attempts k with
    | SendAttempt.ok n => some (some n, errq)
    | SendAttempt.fail =>
      match recv_err errq with
      | (true, errq2) => some (none, errq2)
      | (false, errq2) => send_safe_go attempts fuel (k + 1) errq2

/-- Function `send_safe (fd, msg)` from the source, starting at the first `sendmsg`
call with the given error queue. -/
def send_safe (attempts : Nat → SendAttempt) (errq : List Nat) (fuel : Nat) :
    Option (Option Nat × List Nat) :=
  send_safe_go attempts fuel 0 errq

/-! ## STUN codec/agent collaborator (modelled from the spec) -/

/-- Modelled from the spec: the validation statuses `stun_agent_validate`
can return — `SUCCESS`, `UNKNOWN_REQUEST_ATTRIBUTE`, or any other status
(treated uniformly as non-success by the dispatcher). -/
inductive StunValidationStatus
  | success
  | unknownRequestAttribute
  | other
  deriving DecidableEq, Repr

/-- Modelled from the spec: the class of a parsed STUN message
(`stun_message_get_class`); the dispatcher only distinguishes
`STUN_REQUEST` from everything else. -/
inductive StunClass
  | request
  | indication
  | response
  | error
  deriving DecidableEq, Repr

/-- Modelled from the spec: the method of a parsed STUN message
(`stun_message_get_method`); the dispatcher only distinguishes
`STUN_BINDING` from everything else. -/
inductive StunMethod
  | binding
  | other
  deriving DecidableEq, Repr

/-- Modelled from the spec: the parsed request handle produced by
`stun_agent_validate` — its class, method, magic-cookie marker
(`stun_has_cookie`), the unknown comprehension-required attribute types
found in it, and the transaction-derived XOR mask used by the
XOR-mapped-address obfuscation. -/
structure StunRequest where
  cls : StunClass
  method : StunMethod
  hasCookie : Bool
  unknownAttrs : List Nat
  xorMask : Nat
  deriving DecidableEq, Repr

/-- Modelled from the spec: an address attribute appended to a response —
either a plain `MAPPED_ADDRESS` holding the address, or an
`XOR_MAPPED_ADDRESS` holding the obfuscated bytes. -/
inductive Attribute
  | mappedAddress (a : Nat)
  | xorMappedAddress (masked : Nat)
  deriving DecidableEq, Repr

/-- Modelled from the spec: the response under construction — an
unknown-attributes error response naming the offending attribute types, a
success response with its appended attributes, or an error response with
its status code. -/
inductive Response
  | unknownAttributesError (offending : List Nat)
  | success (attrs : List Attribute)
  | error (code : Nat)
  deriving DecidableEq, Repr

/-- The `STUN_ERROR_BAD_REQUEST` status code. -/
def STUN_ERROR_BAD_REQUEST : Nat := 400

/-- The constant `STUN_MAX_MESSAGE_SIZE`, the size of the receive/response buffer
(value from the codec headers; only its being far below `SIZE_MAX`
matters here). -/
def STUN_MAX_MESSAGE_SIZE : Nat := 65552

/-- Modelled from the spec: `stun_agent_build_unknown_attributes_error`
builds an error response naming the offending attributes of the request. -/
def stun_agent_build_unknown_attributes_error (req : StunRequest) : Response :=
  Response.unknownAttributesError req.unknownAttrs

/-- Modelled from the spec: `stun_agent_init_response` starts an empty
success response for the request. -/
def stun_agent_init_response : Response :=
  Response.success []

/-- Modelled from the spec: `stun_agent_init_error` starts an error
response carrying the given status code. -/
def stun_agent_init_error (code : Nat) : Response :=
  Response.error code

/-- Modelled from the spec: `stun_message_append_xor_addr` appends an
XOR-mapped-address attribute — the address obfuscated by exclusive-or
with the transaction-derived mask. -/
def stun_message_append_xor_addr (mask : Nat) (a : Nat) : Attribute :=
  Attribute.xorMappedAddress (Nat.xor a mask)

/-- Modelled from the spec: `stun_message_append_addr` appends a plain
mapped-address attribute holding the address unobfuscated. -/
def stun_message_append_addr (a : Nat) : Attribute :=
  Attribute.mappedAddress a

/-- Appending an attribute to a response (only success responses receive
appended address attributes in this program). -/
def appendAttr : Response → Attribute → Response
  | Response.success attrs, a => Response.success (attrs ++ [a])
  | r, _ => r

/-! ## The Binding Dispatcher (`dgram_process`) -/

/-- The oracle environment of one `dgram_process` call: the `recvmsg`
outcome, the result of `stun_agent_validate` on the received bytes (status
and parsed-request handle), the finalized length `stun_agent_finish_message`
returns for a given response, the outcomes of successive `sendmsg` calls,
the socket's asynchronous error queue, and fuel for the `send_safe` loop. -/
structure Env where
  recv : RecvOut
  vstatus : StunValidationStatus
  vreq : StunRequest
  finishLen : Response → Nat
  sendAttempts : Nat → SendAttempt
  errq : List Nat
  fuel : Nat

/-- The `ssize_t` returned by `send_safe` as it is stored into the `size_t`
variable `len` at line 253: `-1` becomes `SIZE_MAX = 2^64 - 1` (LP64). -/
def sendLenStored : Option Nat → Nat
  | none => 2 ^ 64 - 1
  | some n => n

/-- The value `dgram_process` returns after the `send_buf` label:
`(len < iov.iov_len) ? -1 : 0`, with `len` the `size_t`-stored `send_safe`
result and `iovLen` the `iov.iov_len` in effect at the send.  `none` means
the `send_safe` loop exhausted its fuel (the C loop did not terminate). -/
def send_ret (attempts : Nat → SendAttempt) (errq : List Nat) (fuel : Nat)
    (iovLen : Nat) : Option Int :=
  match send_safe attempts errq fuel with
  | none => none
  | some (res, _) =>
    some (if sendLenStored res < iovLen then (-1 : Int) else 0)

/-- Observable outcome of one `dgram_process` call:
* `recvFail` — `recv_safe` reported failure; `return -1` before validation,
  nothing handed to the dispatcher, nothing sent;
* `drop` — the mal-formatted-packet `return -1` (lines 227-230): no
  response built, nothing sent, nothing logged;
* `sent resp bytes dest ret` — a response was built and `send_safe` was
  invoked with `iov.iov_len = bytes` addressed to `dest`; `ret` is the
  function's return value (`none` if the send loop exhausted its fuel). -/
inductive ProcResult
  | recvFail
  | drop
  | sent (resp : Response) (bytes : Nat) (dest : Nat) (ret : Option Int)
  deriving DecidableEq, Repr

/-- The Binding-method arm of the `switch` (lines 234-243):
`stun_agent_init_response`, then `stun_message_append_xor_addr` with
`STUN_ATTRIBUTE_XOR_MAPPED_ADDRESS` if the request has the magic cookie,
else `stun_message_append_addr` with `STUN_ATTRIBUTE_MAPPED_ADDRESS` —
both with `mh.msg_name`, the transport-observed peer address. -/
def binding_response (req : StunRequest) (peer : Nat) : Response :=
  if req.hasCookie then
    appendAttr stun_agent_init_response (stun_message_append_xor_addr req.xorMask peer)
  else
    appendAttr stun_agent_init_response (stun_message_append_addr peer)

/-- The `switch (stun_message_get_method (&request))` (lines 232-248):
Binding builds the success response; any other method builds
`stun_agent_init_error` with `STUN_ERROR_BAD_REQUEST`. -/
def dispatch_response (req : StunRequest) (peer : Nat) : Response :=
  match req.method with
  | StunMethod.binding => binding_response req peer
  | StunMethod.other => stun_agent_init_error STUN_ERROR_BAD_REQUEST

/-- Function `dgram_process (sock, agent)` from the source (lines 192-255):
`recv_safe`; `return -1` if it failed; `stun_agent_validate` (its result is
the environment's oracle data); on `UNKNOWN_REQUEST_ATTRIBUTE` build the
unknown-attributes error and `goto send_buf` — note `iov.iov_len` is not
updated on this path, so the send uses `sizeof (buf) = STUN_MAX_MESSAGE_SIZE`;
on any other non-success status, or a non-request class, `return -1`;
otherwise dispatch by method, set `iov.iov_len` from
`stun_agent_finish_message`, and at `send_buf:` call `send_safe` and return
`(len < iov.iov_len) ? -1 : 0`. -/
def dgram_process (e : Env) : ProcResult :=
  match recv_safe e.recv e.errq with
  | (Except.error _, _, _) => ProcResult.recvFail
  | (Except.ok (_, peer), errq1, _) =>
    if e.vstatus = StunValidationStatus.unknownRequestAttribute then
      ProcResult.sent (stun_agent_build_unknown_attributes_error e.vreq)
        STUN_MAX_MESSAGE_SIZE peer
        (send_ret e.sendAttempts errq1 e.fuel STUN_MAX_MESSAGE_SIZE)
    else if e.vstatus ≠ StunValidationStatus.success ∨ e.vreq.cls ≠ StunClass.request then
      ProcResult.drop
    else
      ProcResult.sent (dispatch_response e.vreq peer)
        (e.finishLen (dispatch_response e.vreq peer)) peer
        (send_ret e.sendAttempts errq1 e.fuel (e.finishLen (dispatch_response e.vreq peer)))

/-- The server loop (`run`, lines 269-270) processes each datagram in turn
and ignores every iteration's outcome; modelled on a finite schedule of
per-iteration oracle environments. -/
def run_loop (es : List Env) : List ProcResult :=
  es.map dgram_process

/-! ## Concrete sample environments (used to instantiate the theorems) -/

/-- A parsed Binding request carrying the magic cookie. -/
def reqCookie : StunRequest :=
  { cls := StunClass.request, method := StunMethod.binding, hasCookie := true,
    unknownAttrs := [], xorMask := 9 }

/-- A parsed Binding request without the magic cookie. -/
def reqPlain : StunRequest :=
  { cls := StunClass.request, method := StunMethod.binding, hasCookie := false,
    unknownAttrs := [], xorMask := 0 }

/-- A parsed request for a method other than Binding. -/
def reqOther : StunRequest :=
  { cls := StunClass.request, method := StunMethod.other, hasCookie := false,
    unknownAttrs := [], xorMask := 0 }

/-- A parsed request carrying one unknown comprehension-required attribute
(type 17). -/
def reqUnknown : StunRequest :=
  { cls := StunClass.request, method := StunMethod.binding, hasCookie := true,
    unknownAttrs := [17], xorMask := 9 }

/-- A datagram from peer 42 validating as a cookie-bearing Binding request;
the codec finalizes to 40 bytes and every send succeeds with 40 bytes. -/
def envC1 : Env :=
  { recv := RecvOut.ok 20 false 42, vstatus := StunValidationStatus.success,
    vreq := reqCookie, finishLen := fun _ => 40,
    sendAttempts := fun _ => SendAttempt.ok 40, errq := [], fuel := 5 }

/-- A datagram whose validation returns a non-success, non-unknown status. -/
def envC4 : Env :=
  { recv := RecvOut.ok 20 false 42, vstatus := StunValidationStatus.other,
    vreq := reqCookie, finishLen := fun _ => 40,
    sendAttempts := fun _ => SendAttempt.ok 40, errq := [], fuel := 5 }

/-- A datagram whose validation reports an unknown comprehension-required
attribute; every send succeeds with the full requested length. -/
def envUnknown : Env :=
  { recv := RecvOut.ok 20 false 42,
    vstatus := StunValidationStatus.unknownRequestAttribute,
    vreq := reqUnknown, finishLen := fun _ => 40,
    sendAttempts := fun _ => SendAttempt.ok STUN_MAX_MESSAGE_SIZE,
    errq := [], fuel := 5 }

/-- A datagram validating as a request for a non-Binding method. -/
def envC6 : Env :=
  { recv := RecvOut.ok 20 false 42, vstatus := StunValidationStatus.success,
    vreq := reqOther, finishLen := fun _ => 40,
    sendAttempts := fun _ => SendAttempt.ok 40, errq := [], fuel := 5 }

/-- A datagram the OS reports as truncated (`MSG_TRUNC` set). -/
def envC7 : Env :=
  { recv := RecvOut.ok 20 true 42, vstatus := StunValidationStatus.success,
    vreq := reqPlain, finishLen := fun _ => 40,
    sendAttempts := fun _ => SendAttempt.ok 40, errq := [], fuel := 5 }

/-- A valid cookieless Binding request whose send fails outright: every
`sendmsg` attempt fails and the error queue holds one stale entry, so
`send_safe` returns `-1` after draining it. -/
def envC10 : Env :=
  { recv := RecvOut.ok 20 false 42, vstatus := StunValidationStatus.success,
    vreq := reqPlain, finishLen := fun _ => 40,
    sendAttempts := fun _ => SendAttempt.fail, errq := [3], fuel := 5 }

/-- OS oracle where `socket()` returns descriptor 7 and all calls succeed. -/
def osOk : OsEnv :=
  { socketResult := some 7, bindOk := true, listenOk := true }

/-- OS oracle where `socket()` returns descriptor 1 (aliasing stdout). -/
def osLow : OsEnv :=
  { socketResult := some 1, bindOk := true, listenOk := true }

/-! ## Theorems for the claims -/

/-- C1: a received datagram validating as SUCCESS, class request, method
Binding yields a success response populated with the transport-observed
peer address of the datagram: with the magic cookie an XOR-obfuscated
mapped-address attribute that de-obfuscates to the peer address; without
it a plain mapped-address attribute equal to the peer address. -/
theorem binding_request_uses_transport_peer_address (e : Env) (l peer : Nat)
    (hr : e.recv = RecvOut.ok l false peer)
    (hv : e.vstatus = StunValidationStatus.success)
    (hcls : e.vreq.cls = StunClass.request)
    (hm : e.vreq.method = StunMethod.binding) :
    (e.vreq.hasCookie = true →
      dgram_process e =
        ProcResult.sent
          (Response.success [Attribute.xorMappedAddress (Nat.xor peer e.vreq.xorMask)])
          (e.finishLen (binding_response e.vreq peer)) peer
          (send_ret e.sendAttempts e.errq e.fuel (e.finishLen (binding_response e.vreq peer)))
      ∧ Nat.xor (Nat.xor peer e.vreq.xorMask) e.vreq.xorMask = peer)
    ∧ (e.vreq.hasCookie = false →
      dgram_process e =
        ProcResult.sent (Response.success [Attribute.mappedAddress peer])
          (e.finishLen (binding_response e.vreq peer)) peer
          (send_ret e.sendAttempts e.errq e.fuel (e.finishLen (binding_response e.vreq peer)))) := by
  constructor
  · intro hc
    constructor
    · simp [dgram_process, hr, recv_safe, hv, hcls, dispatch_response, hm,
        binding_response, hc, appendAttr, stun_agent_init_response,
        stun_message_append_xor_addr]
    · exact Nat.xor_cancel_right _ _
  · intro hc
    simp [dgram_process, hr, recv_safe, hv, hcls, dispatch_response, hm,
      binding_response, hc, appendAttr, stun_agent_init_response,
      stun_message_append_addr]

/-- Witness for C1: the cookie-bearing Binding request of `envC1` from peer
42 is answered with an XOR-mapped-address attribute that de-obfuscates to
42. -/
theorem binding_request_uses_transport_peer_address_witness :
    dgram_process envC1 =
      ProcResult.sent (Response.success [Attribute.xorMappedAddress (Nat.xor 42 9)])
        40 42 (some 0)
    ∧ Nat.xor (Nat.xor 42 9) 9 = 42 :=
  (binding_request_uses_transport_peer_address envC1 20 42 rfl rfl rfl rfl).1 rfl

/-- Helper: with an empty error queue and every `sendmsg` attempt failing,
the `send_safe` loop never terminates (it exhausts any fuel), because the
loop condition `(len == -1) && (recv_err (fd) == 0)` keeps holding. -/
theorem sendSafeGoAllFailEmpty (fuel k : Nat) :
    send_safe_go (fun _ => SendAttempt.fail) fuel k [] = none := by
  induction fuel generalizing k with
  | zero => rfl
  | succ m ih => simpa [send_safe_go, recv_err] using ih (k + 1)

/-- C2 (refuting the claim as stated): the `send_safe` loop condition is
`(len == -1) && (recv_err (fd) == 0)`, so with one stale queued error and a
first `sendmsg` failure the loop dequeues the stale entry, immediately
stops and returns `-1` — the stale condition is reported as the new send's
failure even though every later attempt would succeed; and when the error
queue is empty it keeps retrying a failing send forever (no fuel
suffices), instead of reporting the final failure. -/
theorem send_safe_stale_error_reported_as_failure :
    send_safe (fun k => if k = 0 then SendAttempt.fail else SendAttempt.ok 5) [7] 10
      = some (none, [])
    ∧ send_safe (fun _ => SendAttempt.fail) [] 1000 = none := by
  refine ⟨by decide, sendSafeGoAllFailEmpty 1000 0⟩

/-- C3 (refuting the claim as stated): on the unknown-attributes path
`iov.iov_len` is never updated (the `goto send_buf` skips the
`stun_agent_finish_message` assignment and the return value of
`stun_agent_build_unknown_attributes_error` is discarded), so the bytes
handed to `send_safe` are `sizeof (buf) = STUN_MAX_MESSAGE_SIZE`, not the
codec's finalized length (40 here). -/
theorem unknown_attributes_path_sends_full_buffer :
    dgram_process envUnknown =
      ProcResult.sent (Response.unknownAttributesError [17])
        STUN_MAX_MESSAGE_SIZE 42 (some 0)
    ∧ envUnknown.finishLen (Response.unknownAttributesError [17]) = 40
    ∧ STUN_MAX_MESSAGE_SIZE ≠ 40 := by
  refine ⟨by decide, rfl, by decide⟩

/-- C4: a received datagram whose validation status is neither SUCCESS nor
UNKNOWN_REQUEST_ATTRIBUTE, or whose parsed class is not request, is
dropped: `return -1` with nothing sent, no response built, nothing logged.
The hypothesis `hcontract` is the codec contract that the
UNKNOWN_REQUEST_ATTRIBUTE status is only produced for request-class
messages. -/
theorem invalid_or_nonrequest_datagram_dropped (e : Env) (l peer : Nat)
    (hr : e.recv = RecvOut.ok l false peer)
    (hcontract : e.vstatus = StunValidationStatus.unknownRequestAttribute →
      e.vreq.cls = StunClass.request)
    (h : (e.vstatus ≠ StunValidationStatus.success ∧
          e.vstatus ≠ StunValidationStatus.unknownRequestAttribute)
         ∨ e.vreq.cls ≠ StunClass.request) :
    dgram_process e = ProcResult.drop := by
  have hu : e.vstatus ≠ StunValidationStatus.unknownRequestAttribute := by
    intro hu
    rcases h with ⟨_, hnu⟩ | hc
    · exact hnu hu
    · exact hc (hcontract hu)
  have h2 : e.vstatus ≠ StunValidationStatus.success ∨ e.vreq.cls ≠ StunClass.request := by
    rcases h with ⟨hns, _⟩ | hc
    · exact Or.inl hns
    · exact Or.inr hc
  simp [dgram_process, hr, recv_safe, hu, h2]

/-- Witness for C4: the datagram of `envC4` (status neither SUCCESS nor
UNKNOWN_REQUEST_ATTRIBUTE) is dropped. -/
theorem invalid_or_nonrequest_datagram_dropped_witness :
    dgram_process envC4 = ProcResult.drop :=
  invalid_or_nonrequest_datagram_dropped envC4 20 42 rfl (fun _ => rfl)
    (Or.inl ⟨by decide, by decide⟩)

/-- C5: a received datagram whose validation status is
UNKNOWN_REQUEST_ATTRIBUTE is answered with an unknown-attributes error
response naming the offending attributes, going directly to transmission
(method dispatch is skipped — the result does not depend on the method),
and never yields a Binding success response. -/
theorem unknown_attribute_request_gets_unknown_attributes_error (e : Env) (l peer : Nat)
    (hr : e.recv = RecvOut.ok l false peer)
    (hv : e.vstatus = StunValidationStatus.unknownRequestAttribute) :
    dgram_process e =
      ProcResult.sent (Response.unknownAttributesError e.vreq.unknownAttrs)
        STUN_MAX_MESSAGE_SIZE peer
        (send_ret e.sendAttempts e.errq e.fuel STUN_MAX_MESSAGE_SIZE)
    ∧ ∀ attrs bytes dest ret,
        dgram_process e ≠ ProcResult.sent (Response.success attrs) bytes dest ret := by
  have h1 : dgram_process e =
      ProcResult.sent (Response.unknownAttributesError e.vreq.unknownAttrs)
        STUN_MAX_MESSAGE_SIZE peer
        (send_ret e.sendAttempts e.errq e.fuel STUN_MAX_MESSAGE_SIZE) := by
    simp [dgram_process, hr, recv_safe, hv, stun_agent_build_unknown_attributes_error]
  refine ⟨h1, ?_⟩
  intro attrs bytes dest ret hEq
  rw [h1] at hEq
  simp at hEq

/-- Witness for C5: the datagram of `envUnknown` with unknown attribute 17
yields the unknown-attributes error response naming 17, not a Binding
success. -/
theorem unknown_attribute_request_gets_unknown_attributes_error_witness :
    dgram_process envUnknown =
      ProcResult.sent (Response.unknownAttributesError [17])
        STUN_MAX_MESSAGE_SIZE 42 (some 0) :=
  (unknown_attribute_request_gets_unknown_attributes_error envUnknown 20 42 rfl rfl).1

/-- C6: a received datagram validating as SUCCESS with class request and a
method other than Binding is answered with an error response carrying the
bad-request status code, and is never dropped. -/
theorem nonbinding_method_gets_bad_request_error (e : Env) (l peer : Nat)
    (hr : e.recv = RecvOut.ok l false peer)
    (hv : e.vstatus = StunValidationStatus.success)
    (hcls : e.vreq.cls = StunClass.request)
    (hm : e.vreq.method = StunMethod.other) :
    dgram_process e =
      ProcResult.sent (Response.error STUN_ERROR_BAD_REQUEST)
        (e.finishLen (Response.error STUN_ERROR_BAD_REQUEST)) peer
        (send_ret e.sendAttempts e.errq e.fuel
          (e.finishLen (Response.error STUN_ERROR_BAD_REQUEST)))
    ∧ dgram_process e ≠ ProcResult.drop := by
  have h1 : dgram_process e =
      ProcResult.sent (Response.error STUN_ERROR_BAD_REQUEST)
        (e.finishLen (Response.error STUN_ERROR_BAD_REQUEST)) peer
        (send_ret e.sendAttempts e.errq e.fuel
          (e.finishLen (Response.error STUN_ERROR_BAD_REQUEST))) := by
    simp [dgram_process, hr, recv_safe, hv, hcls, dispatch_response, hm,
      stun_agent_init_error]
  refine ⟨h1, ?_⟩
  rw [h1]
  simp

/-- Witness for C6: the non-Binding request of `envC6` gets the bad-request
error response. -/
theorem nonbinding_method_gets_bad_request_error_witness :
    dgram_process envC6 =
      ProcResult.sent (Response.error STUN_ERROR_BAD_REQUEST) 40 42 (some 0) :=
  (nonbinding_method_gets_bad_request_error envC6 20 42 rfl rfl rfl rfl).1

/-- C7: a failed receive makes exactly one best-effort dequeue attempt from
the error queue and reports the original failure without retrying the
receive; a truncated datagram is reported as the distinct message-too-large
failure, its bytes are never handed to the dispatcher (`dgram_process`
returns before validation), and the server loop proceeds to the next
datagram. -/
theorem recv_failure_drain_once_truncation_distinct (errq : List Nat) (l peer : Nat) (e : Env) :
    recv_safe RecvOut.fail errq = (Except.error RecvError.original, (recv_err errq).2, 1)
    ∧ recv_safe (RecvOut.ok l true peer) errq = (Except.error RecvError.msgTooLarge, errq, 0)
    ∧ (e.recv = RecvOut.fail → dgram_process e = ProcResult.recvFail)
    ∧ (e.recv = RecvOut.ok l true peer → dgram_process e = ProcResult.recvFail)
    ∧ ∀ rest, run_loop (e :: rest) = dgram_process e :: run_loop rest := by
  refine ⟨rfl, by simp [recv_safe], ?_, ?_, fun rest => rfl⟩
  · intro h
    simp [dgram_process, h, recv_safe]
  · intro h
    simp [dgram_process, h, recv_safe]

/-- Witness for C7: the truncated datagram of `envC7` is reported as a
receive failure, untouched by the dispatcher. -/
theorem recv_failure_drain_once_truncation_distinct_witness :
    dgram_process envC7 = ProcResult.recvFail :=
  (recv_failure_drain_once_truncation_distinct [] 20 42 envC7).2.2.2.1 rfl

/-- C8: if `socket()` returns a descriptor below 3 (aliasing a standard
stream), `listen_socket` closes it and returns failure before doing
anything else; consequently a successfully returned listening socket never
has a descriptor below 3. -/
theorem listening_socket_never_aliases_std_streams (fam : Fam) (type : SockType)
    (os : OsEnv) (fd : Nat) :
    (os.socketResult = some fd → fd < 3 →
      listen_socket fam type os =
        { fd := none, closed := true, opts := [], listenBacklog := none })
    ∧ (∀ f, (listen_socket fam type os).fd = some f → 3 ≤ f) := by
  constructor
  · intro hs hlt
    simp [listen_socket, hs, hlt]
  · intro f hf
    cases hsr : os.socketResult with
    | none => simp [listen_socket, hsr] at hf
    | some g =>
      by_cases hg : g < 3
      · simp [listen_socket, hsr, hg] at hf
      · simp only [listen_socket, hsr, hg, if_false] at hf
        split_ifs at hf <;> simp_all

/-- Witness for C8: descriptor 1 (stdout) from `socket()` is closed and the
operation fails. -/
theorem listening_socket_never_aliases_std_streams_witness :
    listen_socket Fam.inet SockType.dgram osLow =
      { fd := none, closed := true, opts := [], listenBacklog := none } :=
  (listening_socket_never_aliases_std_streams Fam.inet SockType.dgram osLow 1).1
    rfl (by decide)

/-- C9: a successfully created IPv4 datagram listening socket has had the
`IP_PKTINFO` (per-packet destination metadata) and `IP_RECVERR`
(asynchronous-error reporting) options enabled on it; a successfully
created stream socket has instead been placed into the listening state
with backlog `INT_MAX`. -/
theorem dgram_socket_options_enabled_and_stream_listens (os : OsEnv) (f : Nat) :
    ((listen_socket Fam.inet SockType.dgram os).fd = some f →
      SockOpt.ipPktinfo ∈ (listen_socket Fam.inet SockType.dgram os).opts ∧
      SockOpt.ipRecverr ∈ (listen_socket Fam.inet SockType.dgram os).opts)
    ∧ (∀ fam, (listen_socket fam SockType.stream os).fd = some f →
        (listen_socket fam SockType.stream os).listenBacklog = some INT_MAX) := by
  constructor
  · intro hf
    cases hsr : os.socketResult with
    | none => simp [listen_socket, hsr] at hf
    | some g =>
      simp only [listen_socket, hsr] at hf ⊢
      split_ifs at hf ⊢ <;> simp_all
  · intro fam hf
    cases hsr : os.socketResult with
    | none => simp [listen_socket, hsr] at hf
    | some g =>
      cases fam <;>
        simp only [listen_socket, hsr] at hf ⊢ <;>
        split_ifs at hf ⊢ <;> simp_all

/-- Witness for C9: with descriptor 7 and successful OS calls, the IPv4
datagram socket has both options enabled. -/
theorem dgram_socket_options_enabled_and_stream_listens_witness :
    SockOpt.ipPktinfo ∈ (listen_socket Fam.inet SockType.dgram osOk).opts ∧
    SockOpt.ipRecverr ∈ (listen_socket Fam.inet SockType.dgram osOk).opts :=
  (dgram_socket_options_enabled_and_stream_listens osOk 7).1 rfl

/-- C10 (implicit): `size_t len = send_safe (...)` stores a failed send's
`-1` as `SIZE_MAX`, which is never below `iov.iov_len`, so `dgram_process`
returns 0 (success) when the send fails outright; only a genuinely short
positive byte count makes it return `-1`. -/
theorem failed_send_reported_as_success (e : Env) (l peer n : Nat) (q q' : List Nat)
    (hr : e.recv = RecvOut.ok l false peer)
    (hv : e.vstatus = StunValidationStatus.success)
    (hcls : e.vreq.cls = StunClass.request)
    (hfin : e.finishLen (dispatch_response e.vreq peer) ≤ STUN_MAX_MESSAGE_SIZE) :
    (send_safe e.sendAttempts e.errq e.fuel = some (none, q) →
      dgram_process e =
        ProcResult.sent (dispatch_response e.vreq peer)
          (e.finishLen (dispatch_response e.vreq peer)) peer (some 0))
    ∧ (send_safe e.sendAttempts e.errq e.fuel = some (some n, q') →
        n < e.finishLen (dispatch_response e.vreq peer) →
      dgram_process e =
        ProcResult.sent (dispatch_response e.vreq peer)
          (e.finishLen (dispatch_response e.vreq peer)) peer (some (-1))) := by
  have hmax : e.finishLen (dispatch_response e.vreq peer) ≤ 65552 := hfin
  have hnot : ¬ (sendLenStored none < e.finishLen (dispatch_response e.vreq peer)) := by
    simp only [sendLenStored]
    omega
  constructor
  · intro hs
    simp [dgram_process, hr, recv_safe, hv, hcls, send_ret, hs, hnot]
  · intro hs hlt
    simp [dgram_process, hr, recv_safe, hv, hcls, send_ret, hs, sendLenStored, hlt]

/-- Witness for C10: in `envC10` every `sendmsg` attempt fails and
`send_safe` returns `-1`, yet `dgram_process` returns 0. -/
theorem failed_send_reported_as_success_witness :
    dgram_process envC10 =
      ProcResult.sent (dispatch_response envC10.vreq 42) 40 42 (some 0) :=
  (failed_send_reported_as_success envC10 20 42 0 [] [] rfl rfl rfl (by decide)).1 rfl

end Stund
